import Mathlib

/-
Shallow embedding of the b2 command-line client's core: the chunk-plan
derivation and chunked upload engine (src/main.rs, upload_file_parts),
the single-shot upload path (src/main.rs, upload_file_non_parts), the
upload command's precondition handling (src/main.rs, upload_file), the
authenticating request executor (src/config.rs, Config::send_request_res)
and the authorization header construction (src/config.rs, get_auth).

Machine integers (u64/usize) are modelled as Nat: every quantity involved
(lengths, chunk sizes, counters) stays far below 2^64 on the inputs the
claims speak about, and the source performs no wrapping arithmetic.
Network responses are modelled as values handed to the executor in
sequence; requests the program issues are recorded as trace events.
The SHA-1 digest of the rs_sha1 crate is modelled as an abstract
function parameter `H : List Nat -> String` (lowercase-hex digest of a
byte sequence): every claim about hashing concerns WHICH bytes are fed
to the hasher, never a concrete digest value.
-/

namespace B2

/-- Chunk-plan derivation, transcribed from src/main.rs lines 383-394:
`let mut chunk_size = cfg.recommended_part_size;`
`let chunks = len / chunk_size;`
`if chunks == 0 || chunks == 1 && chunks % chunk_size == 0 {`
`    chunk_size = std::cmp::max(len / 2 + 100, 5_000_000); }`
`let chunks = len / chunk_size;`
Returns (chunk_size, chunks).  Note the source really tests
`chunks % chunk_size == 0`, not `len % chunk_size == 0`. -/
def chunkPlan (len recommended_part_size : Nat) : Nat × Nat :=
  if len / recommended_part_size = 0 ∨
      (len / recommended_part_size = 1 ∧
        (len / recommended_part_size) % recommended_part_size = 0) then
    (max (len / 2 + 100) 5000000, len / max (len / 2 + 100) 5000000)
  else
    (recommended_part_size, len / recommended_part_size)

/-- An HTTP response as the executor inspects it: status code, and the
parsed error body's `code` and `message` (src/api/mod.rs ApiError),
plus the request url the source clones before consuming the body. -/
structure Response where
  status : Nat
  code : String
  message : String
  url : String
deriving DecidableEq

/-- Outcome of Config::send_request_res, with the number of
reauthorizations (`self.reauth()` calls) performed along the way. -/
inductive ExecResult where
  | ok (r : Response) (reauths : Nat)
  | apiError (url code message : String) (reauths : Nat)
  | authExhausted (reauths : Nat)
  | outOfResponses (reauths : Nat)
deriving DecidableEq

/-- The loop of Config::send_request_res (src/config.rs lines 121-147),
over the sequence of responses the mocked operation returns in turn.
`loops` starts at 5; each iteration invokes the operation, then checks
the budget, then the status, then the error code; `reauths` counts the
reauthorizations performed so far. -/
def send_request_go : List Response → Nat → Nat → ExecResult
  | [], _, n => .outOfResponses n
  | r :: rest, loops, n =>
    if loops = 0 then .authExhausted n
    else if r.status = 200 then .ok r n
    else if r.code = "expired_auth_token" then
      send_request_go rest (loops - 1) (n + 1)
    else .apiError r.url r.code r.message n

/-- Config::send_request_res: run the retry loop with budget 5 and no
reauthorizations performed yet. -/
def send_request_res (responses : List Response) : ExecResult :=
  send_request_go responses 5 0

/-- Requests issued by the chunked upload engine, in order.  An
`uploadPart` event records the X-Bz-Part-Number header, the
Content-Length header, the X-Bz-Content-Sha1 header and the request
body (the source sends `buf.clone()`). -/
inductive UploadEvent where
  | startLargeFile
  | getUploadPartUrl
  | uploadPart (partNumber : Nat) (contentLength : Nat) (sha1 : String) (body : List Nat)
  | finishLargeFile (partSha1Array : List String)
deriving DecidableEq

/-- Outcome of upload_file_parts: the ordered hash list handed to
b2_finish_large_file, or the "Not enough data to upload by parts" bail. -/
inductive PartsResult where
  | ok (shas : List String)
  | insufficientData
deriving DecidableEq

/-- State threaded through the part-upload loop: the reused read buffer
(`let mut buf = vec![0u8; chunk_size as usize]`), the accumulated hash
list `shas` and the trace of requests issued so far. -/
structure PartsState where
  buf : List Nat
  shas : List String
  events : List UploadEvent
deriving DecidableEq

/-- FileExt::read_at on a regular file: the bytes obtained by reading up
to `count` bytes at `offset`; at or past end of file this is empty. -/
def read_at (content : List Nat) (offset count : Nat) : List Nat :=
  (content.drop offset).take count

/-- One iteration of the loop `for n in 0..=chunks` in upload_file_parts
(src/main.rs lines 403-425): read up to chunk_size bytes at offset
chunk_size * n into the reused buffer (bytes past num_bytes keep their
previous, stale contents), hash THE WHOLE BUFFER (`shash.write(&buf)`),
push the digest, and issue the part request with part number n + 1,
Content-Length num_bytes, the digest header and body `buf.clone()`. -/
def partStep (H : List Nat → String) (content : List Nat) (chunk_size : Nat)
    (st : PartsState) (n : Nat) : PartsState :=
  let bytes := read_at content (chunk_size * n) chunk_size
  let num_bytes := bytes.length
  let buf := bytes ++ st.buf.drop num_bytes
  let hash := H buf
  { buf := buf
    shas := st.shas ++ [hash]
    events := st.events ++ [.uploadPart (n + 1) num_bytes hash buf] }

/-- The full part-upload loop, iterating n = 0, 1, ..., chunks (inclusive
range `0..=chunks`), started from the zero-filled buffer and from the
trace holding the b2_start_large_file and b2_get_upload_part_url
requests already issued. -/
def partsTrace (H : List Nat → String) (content : List Nat)
    (chunk_size chunks : Nat) : PartsState :=
  (List.range (chunks + 1)).foldl (partStep H content chunk_size)
    ⟨List.replicate chunk_size 0, [],
      [UploadEvent.startLargeFile, UploadEvent.getUploadPartUrl]⟩

/-- upload_file_parts (src/main.rs lines 347-438): issue
b2_start_large_file, then b2_get_upload_part_url, then derive the chunk
plan from the file length and the session's recommended part size; if
the derived chunk count is zero, bail with "Not enough data to upload by
parts" (the two requests have already been issued); otherwise run the
part loop and finish with b2_finish_large_file carrying the ordered
hash list. -/
def upload_file_parts (H : List Nat → String) (content : List Nat)
    (recommended_part_size : Nat) : List UploadEvent × PartsResult :=
  if (chunkPlan content.length recommended_part_size).2 = 0 then
    ([UploadEvent.startLargeFile, UploadEvent.getUploadPartUrl],
      PartsResult.insufficientData)
  else
    ((partsTrace H content (chunkPlan content.length recommended_part_size).1
        (chunkPlan content.length recommended_part_size).2).events ++
      [UploadEvent.finishLargeFile
        (partsTrace H content (chunkPlan content.length recommended_part_size).1
          (chunkPlan content.length recommended_part_size).2).shas],
      PartsResult.ok
        (partsTrace H content (chunkPlan content.length recommended_part_size).1
          (chunkPlan content.length recommended_part_size).2).shas)

/-- The X-Bz-Part-Number headers of a trace, in the order issued. -/
def partNumbers (evs : List UploadEvent) : List Nat :=
  evs.filterMap fun e =>
    match e with
    | .uploadPart n _ _ _ => some n
    | _ => none

/-- The X-Bz-Content-Sha1 headers of the part requests of a trace, in
the order issued. -/
def partShas (evs : List UploadEvent) : List String :=
  evs.filterMap fun e =>
    match e with
    | .uploadPart _ _ s _ => some s
    | _ => none

/-- The partSha1Array fields of the b2_finish_large_file requests of a
trace (there should be exactly one). -/
def finalizeArrays (evs : List UploadEvent) : List (List String) :=
  evs.filterMap fun e =>
    match e with
    | .finishLargeFile l => some l
    | _ => none

/-- An open file with its read cursor, for the single-shot path. -/
structure FileHandle where
  content : List Nat
  pos : Nat

/-- Reading a file to its end (std::io::copy from the current cursor):
yields the bytes from the cursor on and leaves the cursor at EOF. -/
def readToEnd (f : FileHandle) : List Nat × FileHandle :=
  (f.content.drop f.pos, { f with pos := f.content.length })

/-- file.seek(SeekFrom::Start(0)). -/
def seekStart (f : FileHandle) : FileHandle :=
  { f with pos := 0 }

/-- The single-shot upload request as upload_file_non_parts builds it:
the X-Bz-Content-Sha1 header, the Content-Length header, and the bytes
streamed as the request body. -/
structure UploadRequest where
  sha1Header : String
  contentLengthHeader : Nat
  body : List Nat

/-- upload_file_non_parts (src/main.rs lines 293-345), after the
b2_get_upload_url exchange: open the file, hash the whole of it with
std::io::copy into the SHA-1 writer, seek back to offset 0, finish the
digest, and stream the file from its (reset) cursor as the body, with
Content-Length set from the file's metadata length. -/
def upload_file_non_parts (H : List Nat → String) (content : List Nat) :
    UploadRequest :=
  let f := FileHandle.mk content 0
  let r1 := readToEnd f
  let f1 := seekStart r1.2
  let hash := H r1.1
  let r2 := readToEnd f1
  { sha1Header := hash
    contentLengthHeader := content.length
    body := r2.1 }

/-- Observable steps of the upload_file command wrapper
(src/main.rs lines 237-291), in program order. -/
inductive CmdEvent where
  | warnNotAFile
  | resolveBucket
  | exitBucketNotFound
  | statFile
  | uploadRequest
deriving DecidableEq

/-- upload_file (src/main.rs lines 237-291), as the sequence of steps it
takes: when the path is not a regular file it only prints
"... is not a file." (no return, no exit) and falls through; it then
resolves the bucket id (get_bucket_id, which may call b2_list_buckets),
exits on an unknown bucket, stats the file, and proceeds to the upload
(a network request).  The Bool records whether the upload was
attempted. -/
def upload_file_cmd (is_file bucket_found : Bool) : List CmdEvent × Bool :=
  let evs := if is_file then [] else [CmdEvent.warnNotAFile]
  let evs := evs ++ [CmdEvent.resolveBucket]
  if bucket_found then
    (evs ++ [CmdEvent.statFile, CmdEvent.uploadRequest], true)
  else
    (evs ++ [CmdEvent.exitBucketNotFound], false)

/-- The standard base64 alphabet (RFC 4648), as used by the base64
crate's BASE64_STANDARD engine. -/
def b64Alphabet : List Char :=
  ['A', 'B', 'C', 'D', 'E', 'F', 'G', 'H', 'I', 'J', 'K', 'L', 'M',
   'N', 'O', 'P', 'Q', 'R', 'S', 'T', 'U', 'V', 'W', 'X', 'Y', 'Z',
   'a', 'b', 'c', 'd', 'e', 'f', 'g', 'h', 'i', 'j', 'k', 'l', 'm',
   'n', 'o', 'p', 'q', 'r', 's', 't', 'u', 'v', 'w', 'x', 'y', 'z',
   '0', '1', '2', '3', '4', '5', '6', '7', '8', '9', '+', '/']

/-- The alphabet character for a 6-bit group. -/
def b64char (n : Nat) : Char :=
  b64Alphabet.getD n 'A'

/-- BASE64_STANDARD.encode: standard base64 with '=' padding, three
input bytes to four output characters; each index into the alphabet is
a 6-bit group (hence the % 64, mirroring the low-6-bit masking). -/
def base64Encode : List Nat → String
  | [] => ""
  | [a] =>
    String.mk [b64char (a / 4 % 64), b64char (a % 4 * 16 % 64), '=', '=']
  | [a, b] =>
    String.mk [b64char (a / 4 % 64), b64char ((a % 4 * 16 + b / 16) % 64),
      b64char (b % 16 * 4 % 64), '=']
  | a :: b :: c :: rest =>
    String.mk [b64char (a / 4 % 64), b64char ((a % 4 * 16 + b / 16) % 64),
      b64char ((b % 16 * 4 + c / 64) % 64), b64char (c % 64)] ++
      base64Encode rest

/-- UTF-8 encoding of one code point. -/
def utf8Bytes (n : Nat) : List Nat :=
  if n < 128 then [n]
  else if n < 2048 then [192 + n / 64, 128 + n % 64]
  else if n < 65536 then [224 + n / 4096, 128 + n / 64 % 64, 128 + n % 64]
  else [240 + n / 262144, 128 + n / 4096 % 64, 128 + n / 64 % 64, 128 + n % 64]

/-- The UTF-8 bytes of a string, as Rust's String exposes them to the
base64 encoder. -/
def strBytes (s : String) : List Nat :=
  (s.data.map fun c => utf8Bytes c.toNat).flatten

/-- get_auth (src/config.rs lines 230-236):
`format!("Basic{}", BASE64_STANDARD.encode(format!("{}:{}", key_id, key)))`. -/
def get_auth (key_id key : String) : String :=
  "Basic" ++ base64Encode (strBytes (key_id ++ ":" ++ key))

/-! Helper lemmas about the executor loop. -/

/-- Stepping the executor loop past a prefix of expired-token responses
(with budget to spare) reauthorizes once per response and spends one
unit of budget per response. -/
theorem send_request_go_expired_run (pre : List Response) :
    ∀ (rs : List Response) (loops n : Nat),
    (∀ r ∈ pre, r.status ≠ 200 ∧ r.code = "expired_auth_token") →
    pre.length < loops →
    send_request_go (pre ++ rs) loops n =
      send_request_go rs (loops - pre.length) (n + pre.length) := by
  induction pre with
  | nil => intro rs loops n _ _; simp
  | cons r pre ih =>
    intro rs loops n h hlen
    obtain ⟨hs, hc⟩ := h r (by simp)
    have hl : ¬ loops = 0 := by simp only [List.length_cons] at hlen; omega
    have hstep : send_request_go (r :: (pre ++ rs)) loops n =
        send_request_go (pre ++ rs) (loops - 1) (n + 1) := by
      simp [send_request_go, hl, hs, hc]
    rw [List.cons_append, hstep,
      ih rs (loops - 1) (n + 1) (fun x hx => h x (by simp [hx]))
        (by simp only [List.length_cons] at hlen; omega)]
    have e1 : loops - 1 - pre.length = loops - (r :: pre).length := by
      simp only [List.length_cons]; omega
    have e2 : n + 1 + pre.length = n + (r :: pre).length := by
      simp only [List.length_cons]; omega
    rw [e1, e2]

/-- When every response is an expired-token rejection and there are more
responses than budget, the loop spends the whole budget reauthorizing
and then fails with the authorization-exhausted error. -/
theorem send_request_go_all_expired :
    ∀ (rs : List Response) (loops n : Nat),
    (∀ r ∈ rs, r.status ≠ 200 ∧ r.code = "expired_auth_token") →
    loops < rs.length →
    send_request_go rs loops n = .authExhausted (n + loops) := by
  intro rs
  induction rs with
  | nil => intro loops n _ hlen; simp at hlen
  | cons r rest ih =>
    intro loops n h hlen
    obtain ⟨hs, hc⟩ := h r (by simp)
    by_cases hl : loops = 0
    · subst hl; simp [send_request_go]
    · have hstep : send_request_go (r :: rest) loops n =
          send_request_go rest (loops - 1) (n + 1) := by
        simp [send_request_go, hl, hs, hc]
      rw [hstep, ih (loops - 1) (n + 1)
        (fun x hx => h x (by simp [hx]))
        (by simp only [List.length_cons] at hlen; omega)]
      have : n + 1 + (loops - 1) = n + loops := by omega
      rw [this]

/-! Helper lemmas about the part-upload loop. -/

/-- The part loop appends exactly one part request per iterated index,
with 1-based part number n + 1. -/
theorem partStep_foldl_numbers (H : List Nat → String) (content : List Nat)
    (C : Nat) : ∀ (l : List Nat) (st : PartsState),
    partNumbers ((l.foldl (partStep H content C) st).events) =
      partNumbers st.events ++ l.map (fun n => n + 1) := by
  intro l
  induction l with
  | nil => intro st; simp
  | cons x l ih =>
    intro st
    simp only [List.foldl_cons, List.map_cons]
    rw [ih]
    simp [partStep, partNumbers, List.filterMap_append]

/-- If the hash list accumulated so far matches the sha headers of the
part requests issued so far, the part loop keeps them matched. -/
theorem partStep_foldl_shas (H : List Nat → String) (content : List Nat)
    (C : Nat) : ∀ (l : List Nat) (st : PartsState),
    partShas st.events = st.shas →
    partShas ((l.foldl (partStep H content C) st).events) =
      (l.foldl (partStep H content C) st).shas := by
  intro l
  induction l with
  | nil => intro st h; simpa using h
  | cons x l ih =>
    intro st h
    simp only [List.foldl_cons]
    apply ih
    simp [partStep, partShas, List.filterMap_append]
    simpa [partShas] using h

/-- The part loop issues no finalize request. -/
theorem partStep_foldl_finalize (H : List Nat → String) (content : List Nat)
    (C : Nat) : ∀ (l : List Nat) (st : PartsState),
    finalizeArrays ((l.foldl (partStep H content C) st).events) =
      finalizeArrays st.events := by
  intro l
  induction l with
  | nil => intro st; simp
  | cons x l ih =>
    intro st
    simp only [List.foldl_cons]
    rw [ih]
    simp [partStep, finalizeArrays, List.filterMap_append]

/-- A trailing finalize request adds no part number. -/
theorem partNumbers_append_finish (evs : List UploadEvent) (l : List String) :
    partNumbers (evs ++ [.finishLargeFile l]) = partNumbers evs := by
  simp [partNumbers, List.filterMap_append]

/-- A trailing finalize request adds no part sha header. -/
theorem partShas_append_finish (evs : List UploadEvent) (l : List String) :
    partShas (evs ++ [.finishLargeFile l]) = partShas evs := by
  simp [partShas, List.filterMap_append]

/-- A trailing finalize request appends its hash array to the finalize
arrays of the trace. -/
theorem finalizeArrays_append_finish (evs : List UploadEvent) (l : List String) :
    finalizeArrays (evs ++ [.finishLargeFile l]) = finalizeArrays evs ++ [l] := by
  simp [finalizeArrays, List.filterMap_append]

/-- Mapping successor over List.range n is the interval 1, ..., n. -/
theorem range_map_succ : ∀ n : Nat,
    (List.range n).map (fun i => i + 1) = List.range' 1 n := by
  intro n
  induction n with
  | zero => simp
  | succ n ih =>
    rw [List.range_succ, List.map_append, ih, List.range'_1_concat]
    simp [Nat.add_comm]

/-! Claim theorems. -/

/-- C1 (amended): for total length L = 10_000_000 and recommended part
size R = 6_000_000, the naive division gives chunks = 1 with remainder
4_000_000; the adjustment branch — taken when chunks == 0, or
chunks == 1 and chunks is an exact multiple of the chunk size — is NOT
triggered, and the final plan is chunk_size = 6_000_000 with chunk
count 1. -/
theorem c1_chunk_plan_example_amended :
    chunkPlan 10000000 6000000 = (6000000, 1) ∧
    ¬ (10000000 / 6000000 = 0 ∨
        (10000000 / 6000000 = 1 ∧ (10000000 / 6000000) % 6000000 = 0)) := by
  decide

/-- C1 (counterexample): the claim says the plan for L = 10_000_000,
R = 6_000_000 has adjusted chunk_size = 5_000_100; the code derives
chunk_size = 6_000_000. -/
theorem c1_chunk_plan_example_cex :
    (chunkPlan 10000000 6000000).1 = 6000000 ∧
    (chunkPlan 10000000 6000000).1 ≠ 5000100 := by
  decide

/-- C3: an operation answering with an expired-token rejection exactly
twice and then a 200 response makes the executor reauthorize exactly
twice and return the third response; an operation answering with an
expired-token rejection on every invocation makes it perform 5
reauthorizations and fail with the authorization-exhausted error. -/
theorem c3_executor_retry :
    (∀ r1 r2 r3 : Response,
      r1.status ≠ 200 → r1.code = "expired_auth_token" →
      r2.status ≠ 200 → r2.code = "expired_auth_token" →
      r3.status = 200 →
      send_request_res [r1, r2, r3] = .ok r3 2) ∧
    (∀ rs : List Response,
      (∀ r ∈ rs, r.status ≠ 200 ∧ r.code = "expired_auth_token") →
      6 ≤ rs.length →
      send_request_res rs = .authExhausted 5) := by
  constructor
  · intro r1 r2 r3 h1s h1c h2s h2c h3s
    simp [send_request_res, send_request_go, h1s, h1c, h2s, h2c, h3s]
  · intro rs hall hlen
    have := send_request_go_all_expired rs 5 0 hall (by omega)
    simpa using this

/-- C3 (witness): concrete mock sequences exercising both halves. -/
theorem c3_executor_retry_witness :
    send_request_res
        [⟨401, "expired_auth_token", "expired", "https://api/x"⟩,
         ⟨401, "expired_auth_token", "expired", "https://api/x"⟩,
         ⟨200, "", "", "https://api/x"⟩] =
      .ok ⟨200, "", "", "https://api/x"⟩ 2 ∧
    send_request_res
        (List.replicate 6 ⟨401, "expired_auth_token", "expired", "https://api/x"⟩) =
      .authExhausted 5 := by
  constructor
  · exact c3_executor_retry.1
      ⟨401, "expired_auth_token", "expired", "https://api/x"⟩
      ⟨401, "expired_auth_token", "expired", "https://api/x"⟩
      ⟨200, "", "", "https://api/x"⟩
      (by decide) rfl (by decide) rfl rfl
  · exact c3_executor_retry.2
      (List.replicate 6 ⟨401, "expired_auth_token", "expired", "https://api/x"⟩)
      (by decide) (by decide)

/-- C4 (amended): for every L ≥ 2 * 5_000_000 and every R ≥ 1, the
derived plan satisfies chunk_count = L / chunk_size and
chunk_count ≥ 1; the bound chunk_size ≥ 5_000_000 additionally holds
whenever R ≥ 5_000_000 (it fails for smaller R, which the code passes
through unadjusted). -/
theorem c4_chunk_plan_bounds_amended :
    ∀ len R : Nat, 2 * 5000000 ≤ len → 1 ≤ R →
    (chunkPlan len R).2 = len / (chunkPlan len R).1 ∧
    1 ≤ (chunkPlan len R).2 ∧
    (5000000 ≤ R → 5000000 ≤ (chunkPlan len R).1) := by
  intro len R hlen _
  unfold chunkPlan
  by_cases hcond : (len / R = 0 ∨ (len / R = 1 ∧ (len / R) % R = 0))
  · rw [if_pos hcond]
    refine ⟨rfl, ?_, fun _ => le_max_right _ _⟩
    have hpos : 0 < max (len / 2 + 100) 5000000 :=
      lt_of_lt_of_le (by norm_num) (le_max_right _ _)
    have hle : max (len / 2 + 100) 5000000 ≤ len := by
      apply max_le <;> omega
    exact (Nat.one_le_div_iff hpos).2 hle
  · rw [if_neg hcond]
    push_neg at hcond
    exact ⟨rfl, Nat.pos_of_ne_zero hcond.1, fun h => h⟩

/-- C4 (witness): the amended statement instantiated at L = 10_000_000,
R = 6_000_000. -/
theorem c4_chunk_plan_bounds_witness :
    (chunkPlan 10000000 6000000).2 = 10000000 / (chunkPlan 10000000 6000000).1 ∧
    1 ≤ (chunkPlan 10000000 6000000).2 ∧
    (5000000 ≤ 6000000 → 5000000 ≤ (chunkPlan 10000000 6000000).1) :=
  c4_chunk_plan_bounds_amended 10000000 6000000 (by decide) (by decide)

/-- C4 (counterexample): for L = 10_000_000 (which satisfies
L ≥ 2 * 5_000_000) and R = 4_999_999 ≥ 1, the derived chunk_size is
4_999_999, below the absolute minimum part size of 5_000_000, so the
claimed bound chunk_size ≥ 5_000_000 fails. -/
theorem c4_chunk_plan_bounds_cex :
    chunkPlan 10000000 4999999 = (4999999, 2) ∧
    (chunkPlan 10000000 4999999).1 < 5000000 := by
  decide

/-- C6 (amended): a non-success response whose parsed error code is not
"expired_auth_token" makes the executor fail at once — no further
reauthorization, no further invocation of the operation — with the
response's url, code and message, PROVIDED fewer than 5
reauthorizations have been performed in this call; expired_auth_token
is the only code that leads to reauthorization and retry. -/
theorem c6_api_error_amended :
    ∀ (pre : List Response) (r : Response) (rest : List Response),
    (∀ p ∈ pre, p.status ≠ 200 ∧ p.code = "expired_auth_token") →
    pre.length < 5 →
    r.status ≠ 200 → r.code ≠ "expired_auth_token" →
    send_request_res (pre ++ r :: rest) =
      .apiError r.url r.code r.message pre.length := by
  intro pre r rest hpre hlen hs hc
  unfold send_request_res
  rw [send_request_go_expired_run pre (r :: rest) 5 0 hpre hlen]
  have h5 : ¬ (5 - pre.length = 0) := by omega
  simp [send_request_go, h5, hs, hc]

/-- C5: in every chunked upload that reaches finalization, the part
numbers submitted are 1, 2, ..., chunks + 1 — strictly increasing from
1 — and the trace contains exactly one finalize request, whose
partSha1Array is exactly the list of per-part sha headers in
submission order. -/
theorem c5_parts_order :
    ∀ (H : List Nat → String) (content : List Nat) (R : Nat),
    (chunkPlan content.length R).2 ≠ 0 →
    partNumbers (upload_file_parts H content R).1 =
      List.range' 1 ((chunkPlan content.length R).2 + 1) ∧
    finalizeArrays (upload_file_parts H content R).1 =
      [partShas (upload_file_parts H content R).1] := by
  intro H content R h
  have hnum : partNumbers (partsTrace H content
      (chunkPlan content.length R).1 (chunkPlan content.length R).2).events =
      List.range' 1 ((chunkPlan content.length R).2 + 1) := by
    unfold partsTrace
    rw [partStep_foldl_numbers, range_map_succ]
    simp [partNumbers]
  have hsha : partShas (partsTrace H content
      (chunkPlan content.length R).1 (chunkPlan content.length R).2).events =
      (partsTrace H content (chunkPlan content.length R).1
        (chunkPlan content.length R).2).shas := by
    unfold partsTrace
    apply partStep_foldl_shas
    simp [partShas]
  have hfin : finalizeArrays (partsTrace H content
      (chunkPlan content.length R).1 (chunkPlan content.length R).2).events =
      [] := by
    unfold partsTrace
    rw [partStep_foldl_finalize]
    simp [finalizeArrays]
  simp only [upload_file_parts, if_neg h]
  constructor
  · rw [partNumbers_append_finish, hnum]
  · rw [finalizeArrays_append_finish, hfin, partShas_append_finish, hsha]
    simp

/-- C5 (witness): the ordering statement instantiated at a 10-byte file
with recommended part size 6: parts 1 and 2 are submitted in order and
the single finalize request lists their sha headers in that order. -/
theorem c5_parts_order_witness :
    partNumbers (upload_file_parts (fun bs => toString bs)
        [0, 1, 2, 3, 4, 5, 6, 7, 8, 9] 6).1 = List.range' 1 2 ∧
    finalizeArrays (upload_file_parts (fun bs => toString bs)
        [0, 1, 2, 3, 4, 5, 6, 7, 8, 9] 6).1 =
      [partShas (upload_file_parts (fun bs => toString bs)
        [0, 1, 2, 3, 4, 5, 6, 7, 8, 9] 6).1] := by
  have h := c5_parts_order (fun bs => toString bs)
    [0, 1, 2, 3, 4, 5, 6, 7, 8, 9] 6 (by decide)
  exact h

/-- C6 (witness): one expired-token rejection, then a "bad_request"
rejection: the executor reauthorizes once, then fails with the
bad_request response's url, code and message; the trailing responses
are never requested. -/
theorem c6_api_error_witness :
    send_request_res
        [⟨401, "expired_auth_token", "expired", "https://api/x"⟩,
         ⟨400, "bad_request", "nope", "https://api/y"⟩,
         ⟨200, "", "", "https://api/z"⟩] =
      .apiError "https://api/y" "bad_request" "nope" 1 :=
  c6_api_error_amended
    [⟨401, "expired_auth_token", "expired", "https://api/x"⟩]
    ⟨400, "bad_request", "nope", "https://api/y"⟩
    [⟨200, "", "", "https://api/z"⟩]
    (by decide) (by decide) (by decide) (by decide)

/-- C6 (counterexample): after five expired-token responses have spent
the reauthorization budget, a sixth response with the non-retryable
code "bad_request" does NOT produce an error carrying its code,
message and url: the executor fails with the authorization-exhausted
error instead. -/
theorem c6_api_error_cex :
    send_request_res
        [⟨401, "expired_auth_token", "expired", "https://api/x"⟩,
         ⟨401, "expired_auth_token", "expired", "https://api/x"⟩,
         ⟨401, "expired_auth_token", "expired", "https://api/x"⟩,
         ⟨401, "expired_auth_token", "expired", "https://api/x"⟩,
         ⟨401, "expired_auth_token", "expired", "https://api/x"⟩,
         ⟨400, "bad_request", "nope", "https://api/y"⟩] =
      .authExhausted 5 ∧
    ExecResult.authExhausted 5 ≠
      .apiError "https://api/y" "bad_request" "nope" 5 := by
  decide

/-- C2 (code behavior at a failing input): the loop hashes and sends the
WHOLE reused buffer, not the num_bytes bytes read.  For a 10-byte file
with chunk_size 6 (derived from R = 6), part 2 reads the 4 bytes
[6, 7, 8, 9] at offset 6, declares Content-Length 4, yet the sha header
is the digest of the 6-byte buffer [6, 7, 8, 9, 4, 5] — the bytes read
followed by two stale bytes of the previous chunk — and that buffer is
the request body.  For a 12-byte file with chunk_size 6, the trailing
iteration reads 0 bytes, and the part submitted carries the digest of
the stale previous buffer [6, ..., 11], not the digest of the empty
byte string.  (The digest is modelled as toString to exhibit its
input.) -/
theorem c2_parts_hash_whole_buffer :
    upload_file_parts (fun bs => toString bs) [0, 1, 2, 3, 4, 5, 6, 7, 8, 9] 6 =
      ([UploadEvent.startLargeFile, UploadEvent.getUploadPartUrl,
        UploadEvent.uploadPart 1 6 (toString ([0, 1, 2, 3, 4, 5] : List Nat))
          [0, 1, 2, 3, 4, 5],
        UploadEvent.uploadPart 2 4 (toString ([6, 7, 8, 9, 4, 5] : List Nat))
          [6, 7, 8, 9, 4, 5],
        UploadEvent.finishLargeFile
          [toString ([0, 1, 2, 3, 4, 5] : List Nat),
           toString ([6, 7, 8, 9, 4, 5] : List Nat)]],
       PartsResult.ok
         [toString ([0, 1, 2, 3, 4, 5] : List Nat),
          toString ([6, 7, 8, 9, 4, 5] : List Nat)]) ∧
    read_at [0, 1, 2, 3, 4, 5, 6, 7, 8, 9] (6 * 1) 6 = [6, 7, 8, 9] ∧
    toString ([6, 7, 8, 9, 4, 5] : List Nat) ≠
      toString ([6, 7, 8, 9] : List Nat) ∧
    (upload_file_parts (fun bs => toString bs)
        [0, 1, 2, 3, 4, 5, 6, 7, 8, 9, 10, 11] 6).1.getD 4
        UploadEvent.startLargeFile =
      UploadEvent.uploadPart 3 0 (toString ([6, 7, 8, 9, 10, 11] : List Nat))
        [6, 7, 8, 9, 10, 11] ∧
    toString ([6, 7, 8, 9, 10, 11] : List Nat) ≠ toString ([] : List Nat) := by
  decide

/-- C7 (code behavior at a failing input): when the path is not a
regular file and the bucket exists, the upload command prints the
not-a-file error but does not abort: it still resolves the bucket id
and proceeds to the upload request. -/
theorem c7_not_a_file_continues :
    upload_file_cmd false true =
      ([CmdEvent.warnNotAFile, CmdEvent.resolveBucket, CmdEvent.statFile,
        CmdEvent.uploadRequest], true) := by
  decide

/-- C8: in the single-shot path the request body is byte-identical to
the whole file content, and the X-Bz-Content-Sha1 header is the digest
of exactly that body — the read cursor is reset to offset 0 between
hashing and body streaming, so the hashed bytes and the streamed bytes
coincide. -/
theorem c8_single_shot_hash :
    ∀ (H : List Nat → String) (content : List Nat),
    (upload_file_non_parts H content).body = content ∧
    (upload_file_non_parts H content).sha1Header =
      H ((upload_file_non_parts H content).body) := by
  intro H content
  constructor <;> simp [upload_file_non_parts, readToEnd, seekStart]

/-- C8 (witness): the single-shot request for a concrete 3-byte file. -/
theorem c8_single_shot_hash_witness :
    (upload_file_non_parts (fun bs => toString bs) [10, 20, 30]).body =
      [10, 20, 30] ∧
    (upload_file_non_parts (fun bs => toString bs) [10, 20, 30]).sha1Header =
      (fun bs => toString bs)
        ((upload_file_non_parts (fun bs => toString bs) [10, 20, 30]).body) :=
  c8_single_shot_hash (fun bs => toString bs) [10, 20, 30]

/-- C9: whenever the recomputed chunk count is zero, upload_file_parts
fails with the insufficient-data error, and its trace shows that the
b2_start_large_file and b2_get_upload_part_url requests were both
already issued before the failure — the large-file session exists
server-side and is left dangling. -/
theorem c9_insufficient_after_requests :
    ∀ (H : List Nat → String) (content : List Nat) (R : Nat),
    (chunkPlan content.length R).2 = 0 →
    upload_file_parts H content R =
      ([UploadEvent.startLargeFile, UploadEvent.getUploadPartUrl],
        PartsResult.insufficientData) := by
  intro H content R h
  simp [upload_file_parts, h]

/-- C9 (witness): a 3-byte file with server-recommended part size
6_000_000 derives chunk count 0, and the failing run has already issued
both session-opening requests. -/
theorem c9_insufficient_after_requests_witness :
    (chunkPlan (List.length [7, 8, 9]) 6000000).2 = 0 ∧
    upload_file_parts (fun bs => toString bs) [7, 8, 9] 6000000 =
      ([UploadEvent.startLargeFile, UploadEvent.getUploadPartUrl],
        PartsResult.insufficientData) :=
  ⟨by decide,
    c9_insufficient_after_requests (fun bs => toString bs)
      [7, 8, 9] 6000000 (by decide)⟩

/-- No character of the first 64 alphabet slots is a space. -/
theorem b64char_bounded_ne_space : ∀ m : Nat, m < 64 → b64char m ≠ ' ' := by
  decide

/-- No alphabet character chosen by a reduced 6-bit group is a space. -/
theorem b64char_mod_ne_space (n : Nat) : b64char (n % 64) ≠ ' ' :=
  b64char_bounded_ne_space (n % 64) (Nat.mod_lt n (by norm_num))

/-- No output of the base64 encoder contains a space: every character
is an alphabet character or the padding character '='. -/
theorem base64Encode_no_space : ∀ bs : List Nat, ' ' ∉ (base64Encode bs).data
  | [] => by simp [base64Encode]
  | [a] => by
    intro h
    have h' : ' ' ∈ [b64char (a / 4 % 64), b64char (a % 4 * 16 % 64), '=', '='] :=
      h
    simp only [List.mem_cons, List.not_mem_nil, or_false] at h'
    rcases h' with h' | h' | h' | h'
    · exact b64char_mod_ne_space (a / 4) h'.symm
    · exact b64char_mod_ne_space (a % 4 * 16) h'.symm
    · exact absurd h' (by decide)
    · exact absurd h' (by decide)
  | [a, b] => by
    intro h
    have h' : ' ' ∈ [b64char (a / 4 % 64), b64char ((a % 4 * 16 + b / 16) % 64),
        b64char (b % 16 * 4 % 64), '='] := h
    simp only [List.mem_cons, List.not_mem_nil, or_false] at h'
    rcases h' with h' | h' | h' | h'
    · exact b64char_mod_ne_space (a / 4) h'.symm
    · exact b64char_mod_ne_space (a % 4 * 16 + b / 16) h'.symm
    · exact b64char_mod_ne_space (b % 16 * 4) h'.symm
    · exact absurd h' (by decide)
  | a :: b :: c :: d :: rest => by
    intro h
    have ih := base64Encode_no_space (d :: rest)
    have h' : ' ' ∈ [b64char (a / 4 % 64), b64char ((a % 4 * 16 + b / 16) % 64),
        b64char ((b % 16 * 4 + c / 64) % 64), b64char (c % 64)] ++
        (base64Encode (d :: rest)).data := h
    rcases List.mem_append.1 h' with h' | h'
    · simp only [List.mem_cons, List.not_mem_nil, or_false] at h'
      rcases h' with h' | h' | h' | h'
      · exact b64char_mod_ne_space (a / 4) h'.symm
      · exact b64char_mod_ne_space (a % 4 * 16 + b / 16) h'.symm
      · exact b64char_mod_ne_space (b % 16 * 4 + c / 64) h'.symm
      · exact b64char_bounded_ne_space (c % 64) (Nat.mod_lt c (by norm_num)) h'.symm
    · exact ih h'
  | [a, b, c] => by
    intro h
    have h' : ' ' ∈ [b64char (a / 4 % 64), b64char ((a % 4 * 16 + b / 16) % 64),
        b64char ((b % 16 * 4 + c / 64) % 64), b64char (c % 64)] ++
        (base64Encode ([] : List Nat)).data := h
    rcases List.mem_append.1 h' with h' | h'
    · simp only [List.mem_cons, List.not_mem_nil, or_false] at h'
      rcases h' with h' | h' | h' | h'
      · exact b64char_mod_ne_space (a / 4) h'.symm
      · exact b64char_mod_ne_space (a % 4 * 16 + b / 16) h'.symm
      · exact b64char_mod_ne_space (b % 16 * 4 + c / 64) h'.symm
      · exact b64char_bounded_ne_space (c % 64) (Nat.mod_lt c (by norm_num)) h'.symm
    · exact absurd h' (by simp [base64Encode])

/-- Sanity: the encoder agrees with the RFC 4648 test vectors and with
the known standard base64 of "id:key". -/
theorem base64Encode_vectors :
    base64Encode (strBytes "") = "" ∧
    base64Encode (strBytes "f") = "Zg==" ∧
    base64Encode (strBytes "fo") = "Zm8=" ∧
    base64Encode (strBytes "foo") = "Zm9v" ∧
    base64Encode (strBytes "id:key") = "aWQ6a2V5" := by
  decide

/-- C10: for every key identifier and key, the Authorization header
built by get_auth — used both by Config::authorise and by
Config::reauth — is the string "Basic" immediately followed by the
standard base64 encoding of "key_id:key", and the header contains no
space character at all (in particular none between "Basic" and the
encoded credentials). -/
theorem c10_auth_header :
    ∀ key_id key : String,
    get_auth key_id key =
      "Basic" ++ base64Encode (strBytes (key_id ++ ":" ++ key)) ∧
    ' ' ∉ (get_auth key_id key).data := by
  intro ki k
  refine ⟨rfl, ?_⟩
  intro h
  have h' : ' ' ∈ "Basic".data ++
      (base64Encode (strBytes (ki ++ ":" ++ k))).data := h
  rcases List.mem_append.1 h' with h' | h'
  · exact absurd h' (by decide)
  · exact base64Encode_no_space _ h'

/-- C10 (witness): the header for key id "id" and key "key" is
"BasicaWQ6a2V5" — "Basic" glued to the base64 of "id:key" with no
space. -/
theorem c10_auth_header_witness :
    get_auth "id" "key" =
      "Basic" ++ base64Encode (strBytes ("id" ++ ":" ++ "key")) ∧
    ' ' ∉ (get_auth "id" "key").data :=
  c10_auth_header "id" "key"

end B2
